import Mathlib

/-!
Verification of the Unifi Guest Portal backend (Go) against its
natural-language specification, via a shallow embedding in Lean 4.

The embedding covers:
* `backend/cache` — the pending-login store (`AddToCache`, `GetRecord`,
  `RemoveFromCache`, `purgeCache`): a Go `map[string]LoginCache` is
  modelled as an association list with Go-map semantics (insert replaces
  the key, delete removes it); `uuid.New().String()` and `time.Now()`
  become explicit parameters (freshness of the token is a hypothesis
  where a theorem needs it).
* `backend/authorization` — the two-step controller client
  (`login`, `authorizeGuest`, `AuthorizeGuestProcess`); the network is
  an oracle: each outbound POST's response is a parameter, and the
  requests the client would send are returned as data.
* `backend/router` — `handleGuestAuthorization` (POST /api/login) and the
  wildcard GET handler with `serveFrontend` / `serveHTML`; the JSON body
  is `Option LoginRequest` (`none` = malformed JSON), the filesystem is
  an oracle (file contents passed as `Option String`), and the observable
  effects (authorization attempts, audit writes via `db.WriteToDb`,
  logged errors) are threaded through an explicit `PortalState`.

Time is modelled in seconds as `Int`; `t.Before(u)` is `t < u`.
-/

namespace GuestPortal

/-- `cache.LoginCache`: a pending-login entry (device id, access point,
creation timestamp in seconds). -/
structure LoginCache where
  ID : String
  AP : String
  Timestamp : Int
deriving DecidableEq, Repr

/-- The Go `map[string]LoginCache` `loginMap`, as an association list. -/
abbrev Cache := List (String × LoginCache)

/-- Lookup in the map: first entry with the key (keys are unique in every
state reachable from the Go map operations). -/
def mapGet : Cache → String → Option LoginCache
  | [], _ => none
  | (k, v) :: rest, key => if k = key then some v else mapGet rest key

/-- Go `delete(loginMap, key)`: remove the key. -/
def mapDelete (m : Cache) (key : String) : Cache :=
  m.filter (fun p => !(p.1 == key))

/-- Go `loginMap[key] = v`: insert, replacing any previous binding. -/
def mapInsert (key : String) (v : LoginCache) (m : Cache) : Cache :=
  (key, v) :: mapDelete m key

/-- `cache.AddToCache`: store a new entry under a freshly generated cache id
(the uuid and the current time are explicit parameters here) and return the
cache id. -/
def AddToCache (id ap : String) (cacheID : String) (now : Int) (m : Cache) :
    String × Cache :=
  (cacheID, mapInsert cacheID ⟨id, ap, now⟩ m)

/-- `cache.RemoveFromCache`: delete the entry if present, returning whether
a removal happened, together with the resulting store. -/
def RemoveFromCache (m : Cache) (cacheID : String) : Bool × Cache :=
  match mapGet m cacheID with
  | some _ => (true, mapDelete m cacheID)
  | none => (false, m)

/-- `cache.GetRecord`: read-only lookup; returns the entry (or `none`, the
Go `nil` pointer) together with the store, which it never modifies. -/
def GetRecord (m : Cache) (cacheID : String) : Option LoginCache × Cache :=
  (mapGet m cacheID, m)

/-- `cache.purgeCache` with the hard-coded 1-hour threshold abstracted:
keep exactly the entries whose timestamp is not before `now - maxAge`. -/
def sweepExpired (now maxAge : Int) (m : Cache) : Cache :=
  m.filter (fun p => ! decide (p.2.Timestamp < now - maxAge))

/-- `cache.purgeCache`: entries older than 1 hour (3600 s) are removed. -/
def purgeCache (now : Int) (m : Cache) : Cache :=
  sweepExpired now 3600 m

/-- The sweep period passed to `cache.PurgeCacheEvery` in `cmd/main.go`
(`30 * time.Second`). -/
def purgeCacheIntervalSeconds : Int := 30

theorem mapGet_mapDelete_self (m : Cache) (k : String) :
    mapGet (mapDelete m k) k = none := by
  induction m with
  | nil => rfl
  | cons p rest ih =>
    by_cases h : p.1 = k
    · simpa [mapDelete, List.filter_cons, h] using ih
    · simpa [mapDelete, List.filter_cons, h, mapGet] using ih

theorem mapGet_mapDelete_ne (m : Cache) (k k' : String) (h : k' ≠ k) :
    mapGet (mapDelete m k) k' = mapGet m k' := by
  induction m with
  | nil => rfl
  | cons p rest ih =>
    rcases p with ⟨a, v⟩
    by_cases hp : a = k
    · subst hp
      simp [mapDelete, List.filter_cons, mapGet, Ne.symm h] at ih ⊢
      exact ih
    · by_cases hk : a = k'
      · subst hk
        simp [mapDelete, List.filter_cons, hp, mapGet]
      · simp [mapDelete, List.filter_cons, hp, mapGet, hk] at ih ⊢
        exact ih

theorem mapGet_mapInsert_self (m : Cache) (k : String) (v : LoginCache) :
    mapGet (mapInsert k v m) k = some v := by
  simp [mapInsert, mapGet]

/-- A response delivered by the external Unifi controller: HTTP status,
body, the `Set-Cookie` set, and the value of the `x-csrf-token` header. -/
structure HttpResponse where
  status : Nat
  body : String
  cookies : List String
  csrfHeader : String
deriving DecidableEq, Repr

/-- The two failure shapes of the controller client, carrying the
response body (`fmt.Errorf("login failed: %s", body)` resp.
`fmt.Errorf("authorization failed: %s", body)`). -/
inductive AuthError where
  | loginFailed (body : String)
  | authorizationFailed (body : String)
deriving DecidableEq, Repr

/-- The authorize-guest POST that `authorization.authorizeGuest` sends to
the site-scoped `stamgr` command endpoint, with the session cookies and
CSRF token it presents. -/
structure AuthRequest where
  url : String
  cmd : String
  mac : String
  apMac : String
  minutes : Int
  cookies : List String
  csrfToken : String
deriving DecidableEq, Repr

/-- `authorization.login`: POST the credentials; on a non-200 status fail
with the response body, otherwise capture the full cookie set and the
`x-csrf-token` header value. The controller's response is the oracle
parameter `resp`. -/
def login (controllerURL username password : String) (resp : HttpResponse) :
    Except String (List String × String) :=
  if resp.status ≠ 200 then Except.error resp.body
  else Except.ok (resp.cookies, resp.csrfHeader)

/-- `authorization.authorizeGuest`: build the site-scoped authorize-guest
command request (attaching the given cookies and CSRF token) and check the
controller's response status. Returns the request that was sent together
with the outcome. -/
def authorizeGuest (controllerURL site clientMAC apMAC : String) (duration : Int)
    (cookies : List String) (csrfToken : String) (resp : HttpResponse) :
    AuthRequest × Option AuthError :=
  let req : AuthRequest :=
    ⟨controllerURL ++ "/proxy/network/api/s/" ++ site ++ "/cmd/stamgr",
      "authorize-guest", clientMAC, apMAC, duration, cookies, csrfToken⟩
  if resp.status ≠ 200 then (req, some (AuthError.authorizationFailed resp.body))
  else (req, none)

/-- `authorization.AuthorizeGuestProcess`: log in, then — only on
success — authorize the guest with the captured cookies and CSRF token.
Returns the list of authorize-guest requests sent (empty when the login
step fails) and the outcome (`none` = success). -/
def AuthorizeGuestProcess (controllerURL site username password clientMAC apMAC : String)
    (duration : Int) (loginResp authResp : HttpResponse) :
    List AuthRequest × Option AuthError :=
  match login controllerURL username password loginResp with
  | Except.error body => ([], some (AuthError.loginFailed body))
  | Except.ok (cookies, csrfToken) =>
      let step2 := authorizeGuest controllerURL site clientMAC apMAC duration
        cookies csrfToken authResp
      ([step2.1], step2.2)

/-- `router.LoginRequest`: the decoded JSON body of POST /api/login.
Fields absent from the JSON decode to the empty string. -/
structure LoginRequest where
  CacheID : String
  Name : String
  Email : String
deriving DecidableEq, Repr

/-- One row written by `db.WriteToDb` (the audit sink). -/
structure AuditRecord where
  cacheId : String
  id : String
  ap : String
  name : String
  email : String
  duration : Int
deriving DecidableEq, Repr

/-- The observable server state threaded through the handler: the
pending-login cache, the `AuthorizeGuestProcess` invocations (with the
client/AP MACs passed), the audit rows written, and the errors printed. -/
structure PortalState where
  cache : Cache
  authCalls : List (String × String)
  auditLog : List AuditRecord
  errorLog : List AuthError
deriving DecidableEq, Repr

/-- The handler's observable HTTP outcome. `crash` is a Go runtime panic
(nil-pointer dereference): the handler produces no response at all. -/
inductive HttpResult where
  | badRequest (msg : String)
  | redirect (location : String) (status : Nat)
  | crash
  | html (content : String)
  | file (path : String)
  | notFound
deriving DecidableEq, Repr

/-- `router.handleGuestAuthorization`: decode the body (`none` models a
JSON decode error → 400); when the cacheId is non-empty, look the record
up with `cache.GetRecord` and — without any nil check — read
`cacheInfo.ID`/`cacheInfo.AP` off the returned pointer, so an unknown
token is a nil-pointer dereference (`HttpResult.crash`). Otherwise call
`AuthorizeGuestProcess` (logging, not propagating, its error), write the
audit row, remove the cache entry, and redirect 303 to /success. -/
def handleGuestAuthorization (body : Option LoginRequest)
    (url site username password : String) (duration : Int) (disableTLS : Bool)
    (loginResp authResp : HttpResponse) (s : PortalState) :
    HttpResult × PortalState :=
  match body with
  | none => (HttpResult.badRequest "Invalid JSON body", s)
  | some req =>
      if req.CacheID ≠ "" then
        match (GetRecord s.cache req.CacheID).1 with
        | none => (HttpResult.crash, s)
        | some cacheInfo =>
            let outcome := (AuthorizeGuestProcess url site username password
              cacheInfo.ID cacheInfo.AP duration loginResp authResp).2
            let s1 : PortalState :=
              { s with authCalls := s.authCalls ++ [(cacheInfo.ID, cacheInfo.AP)],
                       errorLog := s.errorLog ++
                         (match outcome with | some e => [e] | none => []) }
            let s2 : PortalState :=
              { s1 with auditLog := s1.auditLog ++
                  [⟨req.CacheID, cacheInfo.ID, cacheInfo.AP, req.Name, req.Email, duration⟩] }
            let s3 : PortalState :=
              { s2 with cache := (RemoveFromCache s2.cache req.CacheID).2 }
            (HttpResult.redirect "/success" 303, s3)
      else (HttpResult.redirect "/success" 303, s)

/-- Go `strings.Replace(s, pat, rep, 1)` on the character list: replace
the leftmost occurrence of `pat`, if any. -/
def replaceFirstChars : List Char → List Char → List Char → List Char
  | [], _, _ => []
  | c :: rest, pat, rep =>
      if pat.isPrefixOf (c :: rest) then rep ++ (c :: rest).drop pat.length
      else c :: replaceFirstChars rest pat rep

/-- Go `strings.Replace(s, pat, rep, 1)`: replace the first occurrence. -/
def replaceFirst (s pat rep : String) : String :=
  ⟨replaceFirstChars s.data pat.data rep.data⟩

/-- Go `strings.Replace(s, pat, rep, -1)` on the character list for a
non-empty `pat`: replace every non-overlapping occurrence, left to right.
`fuel` bounds the recursion; it is instantiated with the length of the
string, which suffices because every step consumes at least one
character. -/
def replaceAllChars : Nat → List Char → List Char → List Char → List Char
  | 0, s, _, _ => s
  | _ + 1, [], _, _ => []
  | fuel + 1, c :: rest, pat, rep =>
      if pat ≠ [] ∧ pat.isPrefixOf (c :: rest) then
        rep ++ replaceAllChars fuel ((c :: rest).drop pat.length) pat rep
      else c :: replaceAllChars fuel rest pat rep

/-- Go `strings.Replace(s, pat, rep, -1)`: replace every occurrence (the
patterns used in the router are never empty). -/
def replaceAll (s pat rep : String) : String :=
  ⟨replaceAllChars s.data.length s.data pat.data rep.data⟩

/-- The in-page substitution in `serveHTML`: when a cache id is present,
splice a script setting `window.cacheId` in before the closing body tag. -/
def injectCacheId (content cacheId : String) : String :=
  if cacheId ≠ "" then
    replaceFirst content "</body>"
      ("<script>window.cacheId = \"" ++ cacheId ++ "\";</script></body>")
  else content

/-- The `VITE_PAGE_TITLE` fallback in `serveHTML`. -/
def resolveAppName (envTitle : String) : String :=
  if envTitle = "" then "Unifi Guest Portal" else envTitle

/-- The `serveHTML` closure inside `router.serveFrontend`: 404 when the
file cannot be read, otherwise the file content with the cache id
injected and every `%VITE_PAGE_TITLE%` replaced. -/
def serveHTML (fileContent : Option String) (cacheId envTitle : String) :
    HttpResult :=
  match fileContent with
  | none => HttpResult.notFound
  | some content =>
      HttpResult.html (replaceAll (injectCacheId content cacheId)
        "%VITE_PAGE_TITLE%" (resolveAppName envTitle))

/-- `router.serveFrontend`: index page on the root/default-guest paths,
success page on /success, otherwise the raw asset when it exists
(`assetExists` models the `os.Stat` check), else 404. -/
def serveFrontend (path cacheId : String) (indexHtml successHtml : Option String)
    (assetExists : Bool) (envTitle : String) : HttpResult :=
  if path = "/" ∨ path = "" ∨ path = "/guest/s/default/" then
    serveHTML indexHtml cacheId envTitle
  else if path = "/success" then
    serveHTML successHtml cacheId envTitle
  else if assetExists then HttpResult.file path
  else HttpResult.notFound

/-- The wildcard `r.Get("/*")` handler in `router.SetupServer`: when the
`id` query parameter is non-empty (a missing parameter reads as `""`),
add a cache entry from the `id`/`ap` parameters and pass the fresh cache
id on to `serveFrontend`; otherwise serve with an empty cache id. -/
def handleWildcardGet (path queryId queryAp freshToken : String) (now : Int)
    (c : Cache) (indexHtml successHtml : Option String) (assetExists : Bool)
    (envTitle : String) : HttpResult × Cache :=
  if queryId ≠ "" then
    let created := AddToCache queryId queryAp freshToken now c
    (serveFrontend path created.1 indexHtml successHtml assetExists envTitle,
      created.2)
  else
    (serveFrontend path "" indexHtml successHtml assetExists envTitle, c)

theorem mapGet_sweepExpired_of_young (now maxAge : Int) (t : String) (e : LoginCache) :
    ∀ m : Cache, mapGet m t = some e → now - e.Timestamp ≤ maxAge →
      mapGet (sweepExpired now maxAge m) t = some e := by
  intro m
  induction m with
  | nil => intro h _; cases h
  | cons p rest ih =>
    intro hget hle
    rcases p with ⟨a, v⟩
    by_cases ha : a = t
    · subst ha
      simp [mapGet] at hget
      subst hget
      have hkeep : ¬ (v.Timestamp < now - maxAge) := by omega
      simp [sweepExpired, List.filter_cons, hkeep, mapGet]
    · simp [mapGet, ha] at hget
      have hrest := ih hget hle
      by_cases hv : v.Timestamp < now - maxAge
      · simpa [sweepExpired, List.filter_cons, hv] using hrest
      · simpa [sweepExpired, List.filter_cons, hv, mapGet, ha] using hrest

/-- C3: for every token `t` handed out by `AddToCache` (create),
`RemoveFromCache` (consume) returns `true` on its first call, and on the
resulting store every further consume returns `false` without changing
anything and every further `GetRecord` (resolve) returns not-found;
moreover on any store in which `t` is absent, consume is a pure no-op
returning `false` — at-most-once consumption. -/
theorem consume_true_exactly_once (m : Cache) (id ap t : String) (now : Int) :
    (RemoveFromCache (AddToCache id ap t now m).2 t).1 = true ∧
    (RemoveFromCache (RemoveFromCache (AddToCache id ap t now m).2 t).2 t).1 = false ∧
    (RemoveFromCache (RemoveFromCache (AddToCache id ap t now m).2 t).2 t).2 =
      (RemoveFromCache (AddToCache id ap t now m).2 t).2 ∧
    (GetRecord (RemoveFromCache (AddToCache id ap t now m).2 t).2 t).1 = none ∧
    (∀ m2 : Cache, mapGet m2 t = none →
      RemoveFromCache m2 t = (false, m2) ∧ (GetRecord m2 t).1 = none) := by
  have h1 : mapGet (AddToCache id ap t now m).2 t = some ⟨id, ap, now⟩ :=
    mapGet_mapInsert_self m t ⟨id, ap, now⟩
  have hrm : RemoveFromCache (AddToCache id ap t now m).2 t =
      (true, mapDelete (AddToCache id ap t now m).2 t) := by
    simp [RemoveFromCache, h1]
  have h2 : mapGet (RemoveFromCache (AddToCache id ap t now m).2 t).2 t = none := by
    rw [hrm]
    exact mapGet_mapDelete_self _ t
  refine ⟨by rw [hrm], ?_, ?_, ?_, ?_⟩
  · rw [hrm]
    simp [RemoveFromCache, mapGet_mapDelete_self]
  · rw [hrm]
    simp [RemoveFromCache, mapGet_mapDelete_self]
  · rw [hrm]
    simp [GetRecord, mapGet_mapDelete_self]
  · intro m2 hm2
    exact ⟨by simp [RemoveFromCache, hm2], by simp [GetRecord, hm2]⟩

/-- C3 witness: the concrete scenario — create, consume (true), consume
again (false, no change), resolve (not-found). -/
theorem consume_true_exactly_once_witness :
    RemoveFromCache [] "T" = (false, []) ∧ (GetRecord ([] : Cache) "T").1 = none :=
  (consume_true_exactly_once [] "AA:BB:CC:DD:EE:FF" "11:22:33:44:55:66" "T" 0).2.2.2.2
    [] rfl

/-- C4: resolve is read-only. `GetRecord` on a freshly created entry
returns the original device id and AP id stored at creation; for every
store and key, `GetRecord` returns the store unchanged, and a repeated
`GetRecord` returns the same record — resolve never removes or modifies
any entry. -/
theorem resolve_read_only (m : Cache) (id ap t : String) (now : Int) :
    (GetRecord (AddToCache id ap t now m).2 t).1 = some ⟨id, ap, now⟩ ∧
    (∀ (m2 : Cache) (k : String), (GetRecord m2 k).2 = m2) ∧
    (∀ (m2 : Cache) (k : String),
      (GetRecord (GetRecord m2 k).2 k).1 = (GetRecord m2 k).1) := by
  refine ⟨?_, fun m2 k => rfl, fun m2 k => rfl⟩
  simpa [GetRecord] using mapGet_mapInsert_self m t ⟨id, ap, now⟩

/-- C5: one run of the sweep keeps exactly the entries whose age does not
exceed the threshold (so it removes exactly those with age strictly above
it), survivors keep their exact fields and stay resolvable, the
implemented `purgeCache` is the sweep with a 1-hour (3600 s) threshold,
and the tick period wired up in `cmd/main.go` is 30 seconds. -/
theorem sweepExpired_removes_exactly_expired (now maxAge : Int) (m : Cache) :
    (∀ p : String × LoginCache,
      p ∈ sweepExpired now maxAge m ↔ p ∈ m ∧ now - p.2.Timestamp ≤ maxAge) ∧
    (∀ (t : String) (e : LoginCache), mapGet m t = some e →
      now - e.Timestamp ≤ maxAge →
      mapGet (sweepExpired now maxAge m) t = some e) ∧
    purgeCache now m = sweepExpired now 3600 m ∧
    purgeCacheIntervalSeconds = 30 := by
  refine ⟨?_, ?_, rfl, rfl⟩
  · intro p
    constructor
    · intro hp
      rw [sweepExpired, List.mem_filter] at hp
      rcases hp with ⟨h1, h2⟩
      simp at h2
      exact ⟨h1, by omega⟩
    · intro hp
      rw [sweepExpired, List.mem_filter]
      refine ⟨hp.1, ?_⟩
      simp
      omega
  · intro t e hget hle
    exact mapGet_sweepExpired_of_young now maxAge t e m hget hle

/-- C5 witness: with `now = 4000` and the implemented 1-hour threshold, an
entry from time 600 (age 3400 ≤ 3600) survives a sweep and is still
resolvable with its original fields, while an entry from time 100
(age 3900 > 3600) is removed. -/
theorem sweepExpired_removes_exactly_expired_witness :
    mapGet (sweepExpired 4000 3600
        [("old", ⟨"d1", "a1", 100⟩), ("new", ⟨"d2", "a2", 600⟩)]) "new"
      = some ⟨"d2", "a2", 600⟩ ∧
    ¬ (("old", (⟨"d1", "a1", 100⟩ : LoginCache)) ∈
        sweepExpired 4000 3600
          [("old", ⟨"d1", "a1", 100⟩), ("new", ⟨"d2", "a2", 600⟩)]) := by
  constructor
  · exact (sweepExpired_removes_exactly_expired 4000 3600
      [("old", ⟨"d1", "a1", 100⟩), ("new", ⟨"d2", "a2", 600⟩)]).2.1
      "new" ⟨"d2", "a2", 600⟩ (by decide) (by decide)
  · intro hmem
    have := ((sweepExpired_removes_exactly_expired 4000 3600
      [("old", ⟨"d1", "a1", 100⟩), ("new", ⟨"d2", "a2", 600⟩)]).1
      ("old", ⟨"d1", "a1", 100⟩)).mp hmem
    exact absurd this.2 (by decide)

/-- C6: the controller client runs its two steps strictly in order — on a
non-success (non-200) login status it fails with `LoginFailed` carrying
the response body and never sends the site-scoped authorize-guest
command; only on a successful login are the response's full cookie set
and its `x-csrf-token` header value captured and presented with the one
authorize request that follows. -/
theorem authorize_guest_process_two_steps
    (controllerURL site username password clientMAC apMAC : String)
    (duration : Int) (loginResp authResp : HttpResponse) :
    (loginResp.status ≠ 200 →
      AuthorizeGuestProcess controllerURL site username password clientMAC apMAC
          duration loginResp authResp
        = ([], some (AuthError.loginFailed loginResp.body))) ∧
    (loginResp.status = 200 →
      (AuthorizeGuestProcess controllerURL site username password clientMAC apMAC
          duration loginResp authResp).1
        = [⟨controllerURL ++ "/proxy/network/api/s/" ++ site ++ "/cmd/stamgr",
            "authorize-guest", clientMAC, apMAC, duration,
            loginResp.cookies, loginResp.csrfHeader⟩]) := by
  constructor
  · intro h
    simp [AuthorizeGuestProcess, login, h]
  · intro h
    by_cases ha : authResp.status ≠ 200 <;>
      simp [AuthorizeGuestProcess, login, authorizeGuest, h, ha]

/-- C6 witness: a 403 login leaves the authorize-request list empty and
fails with the body; a 200 login sends exactly one authorize request
carrying the login response's cookies and CSRF header. -/
theorem authorize_guest_process_two_steps_witness :
    AuthorizeGuestProcess "https://c" "default" "admin" "pw" "AA" "11" 60
        ⟨403, "api.err.Invalid", [], ""⟩ ⟨200, "", [], ""⟩
      = ([], some (AuthError.loginFailed "api.err.Invalid")) ∧
    (AuthorizeGuestProcess "https://c" "default" "admin" "pw" "AA" "11" 60
        ⟨200, "ok", ["TOKEN=abc"], "csrf123"⟩ ⟨200, "", [], ""⟩).1
      = [⟨"https://c/proxy/network/api/s/default/cmd/stamgr", "authorize-guest",
          "AA", "11", 60, ["TOKEN=abc"], "csrf123"⟩] :=
  ⟨(authorize_guest_process_two_steps "https://c" "default" "admin" "pw" "AA" "11"
      60 ⟨403, "api.err.Invalid", [], ""⟩ ⟨200, "", [], ""⟩).1 (by decide),
   (authorize_guest_process_two_steps "https://c" "default" "admin" "pw" "AA" "11"
      60 ⟨200, "ok", ["TOKEN=abc"], "csrf123"⟩ ⟨200, "", [], ""⟩).2 rfl⟩

/-- C7: when the posted token resolves to a pending login and the
controller login step answers with a non-200 status, the handler still
appends the audit record, still consumes the token (it is no longer
resolvable afterwards), logs the failure, and still answers with a 303
redirect to /success. -/
theorem login_failure_still_audits_and_redirects
    (url site username password : String) (duration : Int) (disableTLS : Bool)
    (loginResp authResp : HttpResponse) (s : PortalState)
    (req : LoginRequest) (cacheInfo : LoginCache)
    (hne : req.CacheID ≠ "")
    (hget : mapGet s.cache req.CacheID = some cacheInfo)
    (hfail : loginResp.status ≠ 200) :
    handleGuestAuthorization (some req) url site username password duration
        disableTLS loginResp authResp s
      = (HttpResult.redirect "/success" 303,
         { cache := mapDelete s.cache req.CacheID,
           authCalls := s.authCalls ++ [(cacheInfo.ID, cacheInfo.AP)],
           auditLog := s.auditLog ++
             [⟨req.CacheID, cacheInfo.ID, cacheInfo.AP, req.Name, req.Email, duration⟩],
           errorLog := s.errorLog ++ [AuthError.loginFailed loginResp.body] }) ∧
    mapGet (mapDelete s.cache req.CacheID) req.CacheID = none := by
  refine ⟨?_, mapGet_mapDelete_self _ _⟩
  simp [handleGuestAuthorization, GetRecord, hne, hget, AuthorizeGuestProcess,
    login, hfail, RemoveFromCache]

/-- C7 witness: a 500 from the controller login still yields the audit
row, the consumed token, the logged failure and the 303 redirect. -/
theorem login_failure_still_audits_and_redirects_witness :
    handleGuestAuthorization (some ⟨"T", "alice", "alice@example.com"⟩)
        "https://c" "default" "admin" "pw" 60 false
        ⟨500, "boom", [], ""⟩ ⟨200, "", [], ""⟩
        ⟨[("T", ⟨"AA", "11", 0⟩)], [], [], []⟩
      = (HttpResult.redirect "/success" 303,
         ⟨[], [("AA", "11")],
          [⟨"T", "AA", "11", "alice", "alice@example.com", 60⟩],
          [AuthError.loginFailed "boom"]⟩) := by
  exact (login_failure_still_audits_and_redirects "https://c" "default" "admin"
    "pw" 60 false ⟨500, "boom", [], ""⟩ ⟨200, "", [], ""⟩
    ⟨[("T", ⟨"AA", "11", 0⟩)], [], [], []⟩ ⟨"T", "alice", "alice@example.com"⟩
    ⟨"AA", "11", 0⟩ (by decide) (by decide) (by decide)).1

/-- C9: a valid JSON body with an empty (or absent, which decodes to
empty) cacheId skips the cache lookup, the controller call, the audit
write and the cache removal: the handler returns the 303 redirect to
/success with the entire state unchanged. -/
theorem empty_cache_id_is_pure_redirect (name email url site username password : String)
    (duration : Int) (disableTLS : Bool) (loginResp authResp : HttpResponse)
    (s : PortalState) :
    handleGuestAuthorization (some ⟨"", name, email⟩) url site username password
        duration disableTLS loginResp authResp s
      = (HttpResult.redirect "/success" 303, s) := by
  simp [handleGuestAuthorization]

/-- C1 (evidence of a code bug): with the pending token `"T"` in the
store, the first POST to /api/login redirects 303 to /success, makes
exactly one authorization attempt, writes exactly one audit record and
consumes the token; but the second, identical POST does not redirect at
all — `cache.GetRecord` returns `nil` and the handler dereferences it
(`cacheInfo.ID`), a nil-pointer panic, modelled as `HttpResult.crash`
(state unchanged, no authorization, no audit). -/
theorem double_submit_second_post_crashes :
    handleGuestAuthorization (some ⟨"T", "alice", "a@b.c"⟩) "https://c" "default"
        "admin" "pw" 60 false ⟨200, "ok", ["TOKEN=abc"], "csrf"⟩ ⟨200, "", [], ""⟩
        ⟨[("T", ⟨"AA:BB:CC:DD:EE:FF", "11:22:33:44:55:66", 0⟩)], [], [], []⟩
      = (HttpResult.redirect "/success" 303,
         ⟨[], [("AA:BB:CC:DD:EE:FF", "11:22:33:44:55:66")],
          [⟨"T", "AA:BB:CC:DD:EE:FF", "11:22:33:44:55:66", "alice", "a@b.c", 60⟩],
          []⟩) ∧
    handleGuestAuthorization (some ⟨"T", "alice", "a@b.c"⟩) "https://c" "default"
        "admin" "pw" 60 false ⟨200, "ok", ["TOKEN=abc"], "csrf"⟩ ⟨200, "", [], ""⟩
        ⟨[], [("AA:BB:CC:DD:EE:FF", "11:22:33:44:55:66")],
         [⟨"T", "AA:BB:CC:DD:EE:FF", "11:22:33:44:55:66", "alice", "a@b.c", 60⟩],
         []⟩
      = (HttpResult.crash,
         ⟨[], [("AA:BB:CC:DD:EE:FF", "11:22:33:44:55:66")],
          [⟨"T", "AA:BB:CC:DD:EE:FF", "11:22:33:44:55:66", "alice", "a@b.c", 60⟩],
          []⟩) := by decide

/-- C2 (evidence of a code bug): a malformed body (JSON decode error)
yields a 400 with no state change, for every state and configuration;
but a well-formed JSON body whose non-empty cacheId is unknown makes the
handler dereference the `nil` returned by `cache.GetRecord` — a panic
(`HttpResult.crash`), not the claimed 303 redirect. -/
theorem malformed_json_400_but_unknown_token_crashes :
    (∀ (url site username password : String) (duration : Int) (disableTLS : Bool)
        (loginResp authResp : HttpResponse) (s : PortalState),
      handleGuestAuthorization none url site username password duration disableTLS
          loginResp authResp s
        = (HttpResult.badRequest "Invalid JSON body", s)) ∧
    handleGuestAuthorization (some ⟨"unknown", "bob", "b@c.d"⟩) "https://c"
        "default" "admin" "pw" 60 false ⟨200, "", [], ""⟩ ⟨200, "", [], ""⟩
        ⟨[], [], [], []⟩
      = (HttpResult.crash, ⟨[], [], [], []⟩) := by
  constructor
  · intro url site username password duration disableTLS loginResp authResp s
    rfl
  · decide

/-- C8 counterexample: a GET for an existing asset path that carries both
`id` and `ap` query parameters serves the raw file, not the login page
with the token embedded — so the claim does not hold for every GET with
`id`/`ap`. -/
theorem get_with_id_ap_on_asset_path_serves_raw_file :
    (handleWildcardGet "/logo.png" "AA" "BB" "T" 0 []
        (some "<html><body></body></html>") (some "<html></html>") true "").1
      = HttpResult.file "/logo.png" ∧
    (handleWildcardGet "/logo.png" "AA" "BB" "T" 0 []
        (some "<html><body></body></html>") (some "<html></html>") true "").1
      ≠ HttpResult.html
          "<html><body><script>window.cacheId = \"T\";</script></body></html>" := by
  decide

/-- C8 (amended): a GET whose query carries a non-empty `id` (with any
`ap`) always creates a new pending-login entry storing those identifiers
under the fresh token, whatever the path; when the path is one of the
portal entry paths (`/`, the empty path, `/guest/s/default/`) and
index.html is readable, the response is the login page with the token
embedded by in-page substitution — a script setting `window.cacheId`
spliced in before the closing body tag — not an HTTP redirect; every
other path (`/success` excepted: chi routes it to its own handler, so the
wildcard route never sees it) serves the raw asset when it exists, else
404, while still creating the entry. -/
theorem get_with_id_creates_entry_and_embeds_token
    (path queryId queryAp freshToken : String) (now : Int) (c : Cache)
    (content : String) (successHtml : Option String) (assetExists : Bool)
    (envTitle : String)
    (hid : queryId ≠ "") (htok : freshToken ≠ "") :
    (handleWildcardGet path queryId queryAp freshToken now c (some content)
        successHtml assetExists envTitle).2
      = mapInsert freshToken ⟨queryId, queryAp, now⟩ c ∧
    (path = "/" ∨ path = "" ∨ path = "/guest/s/default/" →
      (handleWildcardGet path queryId queryAp freshToken now c (some content)
          successHtml assetExists envTitle).1
        = HttpResult.html (replaceAll
            (replaceFirst content "</body>"
              ("<script>window.cacheId = \"" ++ freshToken ++ "\";</script></body>"))
            "%VITE_PAGE_TITLE%" (resolveAppName envTitle))) ∧
    (¬ (path = "/" ∨ path = "" ∨ path = "/guest/s/default/") → path ≠ "/success" →
      (handleWildcardGet path queryId queryAp freshToken now c (some content)
          successHtml assetExists envTitle).1
        = if assetExists then HttpResult.file path else HttpResult.notFound) := by
  refine ⟨?_, ?_, ?_⟩
  · simp [handleWildcardGet, hid, AddToCache]
  · intro hpath
    simp [handleWildcardGet, hid, AddToCache, serveFrontend, hpath, serveHTML,
      injectCacheId, htok]
  · intro hnp hns
    simp [handleWildcardGet, hid, AddToCache, serveFrontend, hnp, hns]

/-- C8 witness: a GET to `/` with `id = "AA"`, `ap = "BB"` and fresh
token `"T"` returns the index page with the script spliced in before
`</body>` together with the new cache entry, and a GET to `/logo.png`
with the same query creates the same entry while serving the asset. -/
theorem get_with_id_creates_entry_and_embeds_token_witness :
    (handleWildcardGet "/" "AA" "BB" "T" 7 []
        (some "<html><body>hi</body></html>") none false "").1
      = HttpResult.html
          "<html><body>hi<script>window.cacheId = \"T\";</script></body></html>" ∧
    (handleWildcardGet "/" "AA" "BB" "T" 7 []
        (some "<html><body>hi</body></html>") none false "").2
      = [("T", ⟨"AA", "BB", 7⟩)] ∧
    (handleWildcardGet "/logo.png" "AA" "BB" "T" 7 []
        (some "<html><body>hi</body></html>") none true "").1
      = HttpResult.file "/logo.png" ∧
    (handleWildcardGet "/logo.png" "AA" "BB" "T" 7 []
        (some "<html><body>hi</body></html>") none true "").2
      = [("T", ⟨"AA", "BB", 7⟩)] := by
  have hroot := get_with_id_creates_entry_and_embeds_token "/" "AA" "BB" "T" 7 []
    "<html><body>hi</body></html>" none false "" (by decide) (by decide)
  have hasset := get_with_id_creates_entry_and_embeds_token "/logo.png" "AA" "BB"
    "T" 7 [] "<html><body>hi</body></html>" none true "" (by decide) (by decide)
  refine ⟨(hroot.2.1 (Or.inl rfl)).trans (by decide), hroot.1.trans (by decide),
    ?_, hasset.1.trans (by decide)⟩
  exact (hasset.2.2 (by decide) (by decide)).trans (by decide)

/-- C10: pending-login creation on GET is keyed solely on a non-empty
`id` query parameter — whatever the `ap` parameter is (including the
empty string a missing parameter reads as), the created entry stores it
verbatim; in particular, with `ap` missing the entry's AP field is `""`
and on a portal entry path the token is still embedded as usual. -/
theorem ap_query_never_checked
    (path queryId freshToken : String) (now : Int) (c : Cache)
    (content : String) (successHtml : Option String) (assetExists : Bool)
    (envTitle : String)
    (hid : queryId ≠ "") (htok : freshToken ≠ "")
    (hpath : path = "/" ∨ path = "" ∨ path = "/guest/s/default/") :
    (∀ queryAp : String,
      (handleWildcardGet path queryId queryAp freshToken now c (some content)
          successHtml assetExists envTitle).2
        = mapInsert freshToken ⟨queryId, queryAp, now⟩ c) ∧
    handleWildcardGet path queryId "" freshToken now c (some content)
        successHtml assetExists envTitle
      = (HttpResult.html (replaceAll
            (replaceFirst content "</body>"
              ("<script>window.cacheId = \"" ++ freshToken ++ "\";</script></body>"))
            "%VITE_PAGE_TITLE%" (resolveAppName envTitle)),
         mapInsert freshToken ⟨queryId, "", now⟩ c) := by
  constructor
  · intro queryAp
    simp [handleWildcardGet, hid, AddToCache]
  · simp [handleWildcardGet, hid, AddToCache, serveFrontend, hpath, serveHTML,
      injectCacheId, htok]

/-- C10 witness: a GET to `/` with `id = "AA"` and no `ap` parameter
creates the entry `("T", ⟨"AA", "", 7⟩)` and still embeds the token. -/
theorem ap_query_never_checked_witness :
    handleWildcardGet "/" "AA" "" "T" 7 []
        (some "<html><body>hi</body></html>") none false ""
      = (HttpResult.html
          "<html><body>hi<script>window.cacheId = \"T\";</script></body></html>",
         [("T", ⟨"AA", "", 7⟩)]) := by
  have h := (ap_query_never_checked "/" "AA" "T" 7 []
    "<html><body>hi</body></html>" none false "" (by decide) (by decide)
    (Or.inl rfl)).2
  exact h.trans (by decide)

end GuestPortal
